import Mathlib

/-!
Shallow embedding of the latoken_bot repository (config.py, language_utils.py,
scraper.py, knowledge_base.py, bot.py) and proofs about it.

External services (OpenAI chat completions, the embedding service, the
langdetect library, HTTP fetching, the file system, the FAISS index search and
langchain's text splitter) are modelled as injected oracles: an `Option`- or
`Except`-valued parameter whose `none`/`error` case stands for the Python call
raising an exception, and whose success case carries the value the call
returned.  Everything the repository itself computes is translated directly
from the source.

Strings are modelled with Lean `String`; Python's `str.lower()` is modelled as
a character-wise `Char.toLower`, which coincides with Python on the ASCII
range where the topic vocabulary lives.
-/

namespace LatokenBot

/- ===================== config.py ===================== -/

/-- config.py, SOURCES: the URL corpus sources. -/
def SOURCES : List String :=
  [ "https://coda.io/@latoken/latoken-talent",
    "https://coda.io/@latoken/latoken-talent/jobs-150",
    "https://coda.io/@latoken/latoken-talent/jobs-123",
    "https://coda.io/@latoken/latoken-talent/hr-referral-program-148",
    "https://coda.io/@latoken/latoken-talent/culture-139",
    "https://coda.io/@latoken/latoken-talent/latoken-161",
    "https://deliver.latoken.com/hackathon" ]

/-- config.py, RELEVANT_TOPICS: the fixed topic vocabulary of the gate. -/
def RELEVANT_TOPICS : List String :=
  [ "latoken", "hackathon", "culture", "interview", "hiring", "work", "job",
    "application", "company", "values", "team", "wartime", "ceo",
    "sugar cookie", "test", "culture deck", "stress" ]

/- ===================== language_utils.py ===================== -/

/-- language_utils.py, LANGUAGE_MAP: (code, display name) pairs. -/
def LANGUAGE_MAP : List (String × String) :=
  [ ("en", "English"), ("ru", "Russian"), ("fr", "French"), ("de", "German"),
    ("es", "Spanish"), ("it", "Italian"), ("zh", "Chinese"), ("ja", "Japanese"),
    ("ko", "Korean"), ("ar", "Arabic") ]

/-- Oracle for the ChatOpenAI translation call in `translate_response`:
`some t` is the model returning content `t`, `none` is the call raising. -/
abbrev TranslateOracle := String → String → Option String

/-- language_utils.py, `translate_response(response, target_language)`.
Returns the input unchanged when the target is `'en'` or not a key of
LANGUAGE_MAP; otherwise invokes the translation model, and returns the input
unchanged when that call raises (the except branch). -/
def translate_response (tr : TranslateOracle) (response : String)
    (target_language : String) : String :=
  if target_language = "en" ∨ target_language ∉ LANGUAGE_MAP.map Prod.fst then
    response
  else
    match tr response target_language with
    | some translated => translated
    | none => response

/-- language_utils.py, `detect_language(text)`: the langdetect call is the
oracle `detect_result`; on an exception (`none`) the function returns "ru". -/
def detect_language (detect_result : Option String) : String :=
  match detect_result with
  | some lang_code => lang_code
  | none => "ru"

/- ===================== scraper.py ===================== -/

/-- Oracle for `requests.get` + BeautifulSoup text extraction inside
`fetch_content`: `.ok text` is the cleaned page text, `.error e` is the
request (or parsing) raising an exception rendered as the string `e`. -/
abbrev FetchOracle := String → Except String String

/-- scraper.py, `fetch_content(url)`: on an exception the function returns
the literal error string built from the url and the exception text. -/
def fetch_content (fetch : FetchOracle) (url : String) : String :=
  match fetch url with
  | .ok text => text
  | .error e => "Error fetching content from " ++ url ++ ": " ++ e

/-- scraper.py, `read_markdown_file(file_path)`: same shape as
`fetch_content`, over the file-system oracle. -/
def read_markdown_file (readFile : String → Except String String)
    (file_path : String) : String :=
  match readFile file_path with
  | .ok content => content
  | .error e => "Error reading content from " ++ file_path ++ ": " ++ e

/-- scraper.py, `fetch_all_sources()`: the insertion-ordered dict mapping each
source identifier (the URLs of SOURCES, then the markdown file paths found by
`get_markdown_files`) to its fetched content, as an association list. -/
def fetch_all_sources (fetch : FetchOracle)
    (readFile : String → Except String String)
    (markdown_files : List String) : List (String × String) :=
  SOURCES.map (fun source => (source, fetch_content fetch source))
    ++ markdown_files.map (fun file_path =>
        (file_path, read_markdown_file readFile file_path))

/- ===================== knowledge_base.py ===================== -/

/-- The metadata dict `{"source": ..., "chunk_id": ...}` attached to each
document in knowledge_base.py. -/
structure DocMetadata where
  source : String
  chunk_id : Nat
deriving DecidableEq

/-- A langchain `Document` as used by knowledge_base.py. -/
structure Document where
  page_content : String
  metadata : DocMetadata
deriving DecidableEq

/-- The FAISS flat index, reduced to the list of stored vectors (float32
rows); the claims only ever count them. -/
structure FaissIndex where
  vectors : List (List Float)

/-- knowledge_base.py, class KnowledgeBase: the mutable fields `index` and
`documents` (`index` is None until loaded or created). -/
structure KnowledgeBase where
  index : Option FaissIndex
  documents : List Document

/-- The `KnowledgeBase.__init__` state: documents = [], index = None. -/
def KnowledgeBase.empty : KnowledgeBase := ⟨none, []⟩

/-- knowledge_base.py, `is_question_relevant(question)`:
`any(topic in question.lower() for topic in RELEVANT_TOPICS)` —
a case-insensitive substring test against the fixed vocabulary. -/
def is_question_relevant (question : String) : Bool :=
  RELEVANT_TOPICS.any
    (fun topic => decide (topic.data <:+: question.data.map Char.toLower))

/-- knowledge_base.py, `load_or_create_index`: the two on-disk artifacts are
the oracles (`none` = the file does not exist).  When both exist they are
loaded verbatim and the function returns True; otherwise False.  The source
performs no consistency check between the two artifacts. -/
def load_or_create_index (kb : KnowledgeBase)
    (stored_index : Option FaissIndex)
    (stored_documents : Option (List Document)) : Bool × KnowledgeBase :=
  match stored_index, stored_documents with
  | some idx, some docs => (true, { kb with index := some idx, documents := docs })
  | some _, none => (false, kb)
  | none, some _ => (false, kb)
  | none, none => (false, kb)

/-- The corpus-assembly loop of `create_index`: every entry of
`source_contents` is split by the (external, langchain) `split_text` oracle
and each chunk becomes a Document tagged with its source and chunk index. -/
def create_index_documents (split_text : String → List String)
    (source_contents : List (String × String)) : List Document :=
  source_contents.flatMap (fun sc =>
    ((split_text sc.2).enum).map (fun ic =>
      { page_content := ic.2, metadata := { source := sc.1, chunk_id := ic.1 } }))

/-- knowledge_base.py, `create_index`: fetch all sources, chunk them, embed the
chunks (the batched OpenAI embedding calls are the `embed_documents` oracle)
and build the flat index from the embedding rows. -/
def create_index (kb : KnowledgeBase) (fetch : FetchOracle)
    (readFile : String → Except String String) (markdown_files : List String)
    (split_text : String → List String)
    (embed_documents : List String → List (List Float)) : KnowledgeBase :=
  let source_contents := fetch_all_sources fetch readFile markdown_files
  let all_documents := create_index_documents split_text source_contents
  let embeddings_list := embed_documents (all_documents.map (·.page_content))
  { kb with documents := all_documents, index := some ⟨embeddings_list⟩ }

/-- Python list indexing `l[i]` for an `int` index: non-negative indices read
from the front, negative indices from the back, out-of-range raises
(`none`). -/
def pyGet {α : Type} (l : List α) (i : Int) : Option α :=
  if 0 ≤ i then l.get? i.toNat
  else if (-i).toNat ≤ l.length then l.get? (l.length - (-i).toNat) else none

/-- The retrieval loop of `query`: for each FAISS index in `indices`, skip the
slot if it is -1, otherwise look the document up and append its text and its
metadata to the two result lists; a lookup failure is the loop raising. -/
def collect_results (documents : List Document) :
    List Int → Option (List String × List DocMetadata)
  | [] => some ([], [])
  | idx :: rest =>
    if idx = -1 then collect_results documents rest
    else
      match pyGet documents idx, collect_results documents rest with
      | some doc, some (texts, metas) =>
        some (doc.page_content :: texts, doc.metadata :: metas)
      | _, _ => none

/-- The synthetic text returned by `query` for a gate-rejected question. -/
def filter_message : String :=
  "I can only answer questions about LATOKEN, its culture, or the hackathon."

/-- knowledge_base.py, `query(question, top_k)`.  `search_fn` is the composed
external embed-the-question + `index.search` call, returning the row indices
FAISS produced (with -1 for missing slots); `none` overall is the query path
raising (e.g. an embedding-service failure maps to an unresolvable lookup). -/
def KnowledgeBase.query (kb : KnowledgeBase)
    (search_fn : String → Nat → List Int) (question : String) (top_k : Nat) :
    Option (List String × List DocMetadata) :=
  if !(is_question_relevant question) then
    some ([filter_message], [{ source := "filter", chunk_id := 0 }])
  else
    collect_results kb.documents (search_fn question top_k)

/-- knowledge_base.py, `initialize_knowledge_base()`: load the snapshot if
possible, otherwise run the full ingestion. -/
def initialize_knowledge_base (stored_index : Option FaissIndex)
    (stored_documents : Option (List Document)) (fetch : FetchOracle)
    (readFile : String → Except String String) (markdown_files : List String)
    (split_text : String → List String)
    (embed_documents : List String → List (List Float)) : KnowledgeBase :=
  let loaded := load_or_create_index KnowledgeBase.empty stored_index stored_documents
  if loaded.1 then loaded.2
  else create_index loaded.2 fetch readFile markdown_files split_text embed_documents

/- ===================== bot.py ===================== -/

/-- bot.py, class UserState. -/
structure UserState where
  chat_history : List (String × String)
  language : String
  last_answer : String
  message_count : Nat
  gpt_answers : List String
deriving DecidableEq

/-- The `UserState.__init__` state: empty history, default language 'ru', no answers. -/
def UserState.init : UserState :=
  { chat_history := [], language := "ru", last_answer := "",
    message_count := 0, gpt_answers := [] }

/-- bot.py, the last path/URL segment used in `format_context`:
`meta["source"].split("/")[-1]`. -/
def source_display_name (source : String) : String :=
  (source.splitOn "/").getLastD ""

/-- The loop body of `format_context`, over the zipped (doc, meta) pairs with
the running 0-based position and the accumulated context string. -/
def format_context_go : List (String × DocMetadata) → Nat → String → String
  | [], _, acc => acc
  | p :: rest, i, acc =>
    if p.2.source = "filter" then ""
    else format_context_go rest (i + 1)
      (acc ++ "\nINFORMATION " ++ toString (i + 1) ++ " (Source: "
        ++ source_display_name p.2.source ++ "):\n" ++ p.1 ++ "\n")

/-- bot.py, `format_context(docs, metadata)`: concatenates the labelled
snippets, but returns "" outright when a sentinel "filter" source is met. -/
def format_context (docs : List String) (metadata : List DocMetadata) : String :=
  format_context_go (docs.zip metadata) 0 ""

/-- bot.py, the fixed follow-up question list in `generate_response`. -/
def follow_up_questions : List String :=
  [ "Вы проверили Culture Deck от LATOKEN?",
    "Вы просмотрели информацию о компании LATOKEN?",
    "Вы смотрели детали хакатона от LATOKEN?",
    "Была ли эта информация полезной для вас?",
    "Вы знакомы с сервисами LATOKEN?",
    "Хотите узнать больше о процессе собеседования?",
    "У вас есть другие вопросы о LATOKEN?" ]

/-- bot.py, the generic error text of `generate_response`'s except branch. -/
def generic_error_message : String :=
  "I'm sorry, I encountered an error while processing your request. Please try again later."

/-- bot.py lines 181-186: the error reply, translated when the user's
language is not 'ru'. -/
def localized_error (language : String) (tr : TranslateOracle) : String :=
  if language ≠ "ru" then translate_response tr generic_error_message language
  else generic_error_message

/-- The three mutually exclusive augmentation outcomes of a turn. -/
inductive Augmentation where
  | comprehension
  | followUp
  | noAug
deriving DecidableEq

/-- bot.py lines 114 and 156: the branching on `len(gpt_answers)` (after the
current answer was appended) and `message_count` (after the increment):
`if len >= 3 and len % 3 == 0` then the comprehension check, `elif
message_count % 3 == 0` then a follow-up, else nothing. -/
def augmentation_decision (num_answers message_count : Nat) : Augmentation :=
  if 3 ≤ num_answers ∧ num_answers % 3 = 0 then .comprehension
  else if message_count % 3 = 0 then .followUp
  else .noAug

/-- bot.py lines 145-147: if "UNDERSTANDING CHECK" occurs in the text, keep
what follows the first occurrence and relabel it in Russian. -/
def relabel_understanding_check (s : String) : String :=
  let parts := s.splitOn "UNDERSTANDING CHECK"
  if 1 < parts.length then "ПРОВЕРКА ПОНИМАНИЯ" ++ parts.getD 1 "" else s

/-- bot.py lines 168-176: the final translate-if-unaugmented step and the
`last_answer` update shared by every successful branch of
`generate_response`.  The base answer is translated exactly when the language
is not 'ru' and the composed reply still equals the raw answer. -/
def finalize (answer complete_answer language : String) (st1 : UserState)
    (tr : TranslateOracle) : String × UserState :=
  let final :=
    if language ≠ "ru" ∧ complete_answer = answer then
      translate_response tr complete_answer language
    else complete_answer
  (final, { st1 with last_answer := answer })

/-- bot.py, `generate_response(question, context, language, user_state)`.
The two ChatOpenAI calls are the oracles `main_completion` (the answer to the
question; `none` = the call raised) and `check_completion` (the
comprehension-check generation); `random.choice` over the follow-up list is
the injected index `follow_up_choice` (reduced mod the list length).  The
question, context and history only feed the external prompt, so they do not
appear on the right-hand side.  Note the code tests `len(gpt_answers)` and
`message_count` after appending the answer and incrementing the counter,
i.e. at the old values plus one.  Returns the reply text and the mutated
user state. -/
def generate_response (question context language : String)
    (user_state : UserState) (main_completion : Option String)
    (check_completion : Option String) (follow_up_choice : Nat)
    (tr : TranslateOracle) : String × UserState :=
  match main_completion with
  | none => (localized_error language tr, user_state)
  | some answer =>
    let st1 : UserState :=
      { user_state with
        gpt_answers := user_state.gpt_answers ++ [answer],
        message_count := user_state.message_count + 1 }
    match augmentation_decision (user_state.gpt_answers.length + 1)
        (user_state.message_count + 1) with
    | .comprehension =>
      match check_completion with
      | none => (localized_error language tr, st1)
      | some check_content =>
        let uc0 := relabel_understanding_check check_content
        let uc := if language ≠ "ru" then translate_response tr uc0 language
                  else uc0
        finalize answer (answer ++ "\n\n" ++ uc) language st1 tr
    | .followUp =>
      let fu0 := follow_up_questions.getD
        (follow_up_choice % follow_up_questions.length) ""
      let fu := if language ≠ "ru" then translate_response tr fu0 language
                else fu0
      finalize answer (answer ++ "\n\n" ++ fu) language st1 tr
    | .noAug => finalize answer answer language st1 tr

/-- bot.py, `handle_message` for a ready knowledge base: detect the language
(updating the state), query the knowledge base (an exception there aborts the
turn with no reply sent), format the context, generate the response and
append the turn to the chat history.  Returns the reply sent (none when the
turn aborted) and the user's state afterwards. -/
def handle_message (kb : KnowledgeBase)
    (search_fn : String → Nat → List Int) (st : UserState)
    (user_message : String) (detect_result : Option String)
    (main_completion check_completion : Option String)
    (follow_up_choice : Nat) (tr : TranslateOracle) :
    Option String × UserState :=
  let detected_lang := detect_language detect_result
  let st0 := { st with language := detected_lang }
  match kb.query search_fn user_message 5 with
  | none => (none, st0)
  | some (retrieved_docs, metadata) =>
    let ctx := format_context retrieved_docs metadata
    let rs := generate_response user_message ctx detected_lang st0
      main_completion check_completion follow_up_choice tr
    (some rs.1,
     { rs.2 with chat_history := rs.2.chat_history ++ [(user_message, rs.1)] })

/-- bot.py, the reset confirmation text. -/
def reset_message_text : String :=
  "Conversation history has been reset. You can start a new conversation now."

/-- bot.py, `reset_command` for user `user_id` over the `user_states` map:
read the old language and gpt_answers (defaults when the user has no state),
install a fresh UserState carrying those two fields forward, and build the
(possibly translated) confirmation message. -/
def reset_command (user_states : Nat → Option UserState) (user_id : Nat)
    (tr : TranslateOracle) : (Nat → Option UserState) × String :=
  let user_lang := match user_states user_id with
    | some s => s.language
    | none => "ru"
  let gpt_answers := match user_states user_id with
    | some s => s.gpt_answers
    | none => []
  let new_state :=
    { UserState.init with language := user_lang, gpt_answers := gpt_answers }
  let states' := fun uid => if uid = user_id then some new_state
                            else user_states uid
  let msg := if user_lang ≠ "ru" then
               translate_response tr reset_message_text user_lang
             else reset_message_text
  (states', msg)

/- ===================== helper lemmas ===================== -/

lemma generate_response_main_failure (q ctx lang : String) (st : UserState)
    (cc : Option String) (fu : Nat) (tr : TranslateOracle) :
    generate_response q ctx lang st none cc fu tr =
      (localized_error lang tr, st) := rfl

lemma string_append_block_ne (a b : String) : a ++ "\n\n" ++ b ≠ a := by
  intro h
  have hl := congrArg String.length h
  have h2 : ("\n\n" : String).length = 2 := rfl
  simp [String.length_append, h2] at hl
  omega

lemma finalize_augmented (answer block language : String) (st1 : UserState)
    (tr : TranslateOracle) :
    finalize answer (answer ++ "\n\n" ++ block) language st1 tr =
      (answer ++ "\n\n" ++ block, { st1 with last_answer := answer }) := by
  simp [finalize, string_append_block_ne]

lemma augmentation_decision_comprehension_iff (n m : Nat) :
    augmentation_decision n m = .comprehension ↔ 3 ≤ n ∧ n % 3 = 0 := by
  unfold augmentation_decision
  split_ifs with h1 h2 <;> simp_all

lemma augmentation_decision_followUp_iff (n m : Nat) :
    augmentation_decision n m = .followUp ↔
      ¬(3 ≤ n ∧ n % 3 = 0) ∧ m % 3 = 0 := by
  unfold augmentation_decision
  split_ifs with h1 h2 <;> simp_all

lemma augmentation_decision_noAug_iff (n m : Nat) :
    augmentation_decision n m = .noAug ↔
      ¬(3 ≤ n ∧ n % 3 = 0) ∧ m % 3 ≠ 0 := by
  unfold augmentation_decision
  split_ifs with h1 h2 <;> simp_all

lemma generate_response_noAug (q ctx lang : String) (st : UserState)
    (a : String) (cc : Option String) (fu : Nat) (tr : TranslateOracle)
    (h : augmentation_decision (st.gpt_answers.length + 1)
          (st.message_count + 1) = .noAug) :
    generate_response q ctx lang st (some a) cc fu tr =
      ((if lang ≠ "ru" then translate_response tr a lang else a),
       { st with gpt_answers := st.gpt_answers ++ [a],
                 message_count := st.message_count + 1, last_answer := a }) := by
  unfold generate_response
  rw [h]
  simp [finalize]

lemma generate_response_followUp (q ctx lang : String) (st : UserState)
    (a : String) (cc : Option String) (fu : Nat) (tr : TranslateOracle)
    (h : augmentation_decision (st.gpt_answers.length + 1)
          (st.message_count + 1) = .followUp) :
    generate_response q ctx lang st (some a) cc fu tr =
      (a ++ "\n\n" ++
        (if lang ≠ "ru" then
          translate_response tr
            (follow_up_questions.getD (fu % follow_up_questions.length) "") lang
         else follow_up_questions.getD (fu % follow_up_questions.length) ""),
       { st with gpt_answers := st.gpt_answers ++ [a],
                 message_count := st.message_count + 1, last_answer := a }) := by
  unfold generate_response
  rw [h]
  simp only [finalize_augmented]

lemma generate_response_comprehension (q ctx lang : String) (st : UserState)
    (a c : String) (fu : Nat) (tr : TranslateOracle)
    (h : augmentation_decision (st.gpt_answers.length + 1)
          (st.message_count + 1) = .comprehension) :
    generate_response q ctx lang st (some a) (some c) fu tr =
      (a ++ "\n\n" ++
        (if lang ≠ "ru" then
          translate_response tr (relabel_understanding_check c) lang
         else relabel_understanding_check c),
       { st with gpt_answers := st.gpt_answers ++ [a],
                 message_count := st.message_count + 1, last_answer := a }) := by
  unfold generate_response
  rw [h]
  simp only [finalize_augmented]

lemma generate_response_check_failure (q ctx lang : String) (st : UserState)
    (a : String) (fu : Nat) (tr : TranslateOracle)
    (h : augmentation_decision (st.gpt_answers.length + 1)
          (st.message_count + 1) = .comprehension) :
    generate_response q ctx lang st (some a) none fu tr =
      (localized_error lang tr,
       { st with gpt_answers := st.gpt_answers ++ [a],
                 message_count := st.message_count + 1 }) := by
  unfold generate_response
  rw [h]

/- ===================== claim theorems ===================== -/

/-- C5: The per-turn augmentation decision is mutually exclusive and evaluated
in priority order: a comprehension-check block is appended exactly when the
number of stored answers (after appending the current one) is at least 3 and a
multiple of 3; otherwise a follow-up question is appended exactly when the
turn count (after the increment) is a multiple of 3; otherwise nothing is
appended.  For answer counts 1..6 only 3 and 6 trigger the comprehension
check. -/
theorem c5_augmentation_priority :
    (∀ n m : Nat,
        augmentation_decision n m = .comprehension ↔ 3 ≤ n ∧ n % 3 = 0)
  ∧ (∀ n m : Nat,
        augmentation_decision n m = .followUp ↔
          ¬(3 ≤ n ∧ n % 3 = 0) ∧ m % 3 = 0)
  ∧ (∀ n m : Nat,
        augmentation_decision n m = .noAug ↔
          ¬(3 ≤ n ∧ n % 3 = 0) ∧ m % 3 ≠ 0)
  ∧ (∀ n : Nat, n ∈ ([1, 2, 3, 4, 5, 6] : List Nat) → ∀ m : Nat,
        (augmentation_decision n m = .comprehension ↔ n = 3 ∨ n = 6))
  ∧ (∀ (st : UserState) (q ctx a : String) (cc : Option String) (fu : Nat)
        (tr : TranslateOracle),
        augmentation_decision (st.gpt_answers.length + 1)
          (st.message_count + 1) = .noAug →
        (generate_response q ctx "ru" st (some a) cc fu tr).1 = a)
  ∧ (∀ (st : UserState) (q ctx a : String) (cc : Option String) (fu : Nat)
        (tr : TranslateOracle),
        augmentation_decision (st.gpt_answers.length + 1)
          (st.message_count + 1) = .followUp →
        (generate_response q ctx "ru" st (some a) cc fu tr).1 =
          a ++ "\n\n" ++
            follow_up_questions.getD (fu % follow_up_questions.length) "")
  ∧ (∀ (st : UserState) (q ctx a c : String) (fu : Nat)
        (tr : TranslateOracle),
        augmentation_decision (st.gpt_answers.length + 1)
          (st.message_count + 1) = .comprehension →
        (generate_response q ctx "ru" st (some a) (some c) fu tr).1 =
          a ++ "\n\n" ++ relabel_understanding_check c) := by
  refine ⟨augmentation_decision_comprehension_iff,
    augmentation_decision_followUp_iff, augmentation_decision_noAug_iff,
    ?_, ?_, ?_, ?_⟩
  · intro n hn m
    rw [augmentation_decision_comprehension_iff]
    fin_cases hn <;> decide
  · intro st q ctx a cc fu tr h
    rw [generate_response_noAug q ctx "ru" st a cc fu tr h]
    simp
  · intro st q ctx a cc fu tr h
    rw [generate_response_followUp q ctx "ru" st a cc fu tr h]
    simp
  · intro st q ctx a c fu tr h
    rw [generate_response_comprehension q ctx "ru" st a c fu tr h]
    simp

/-- Witness for C5 at concrete inputs. -/
theorem c5_augmentation_priority_witness :
    (augmentation_decision 6 2 = .comprehension ↔ 6 = 3 ∨ 6 = 6)
  ∧ (generate_response "q" "" "ru" UserState.init (some "ans") none 0
      (fun _ _ => none)).1 = "ans" :=
  ⟨c5_augmentation_priority.2.2.2.1 6 (by decide) 2,
   c5_augmentation_priority.2.2.2.2.1 UserState.init "q" "" "ans" none 0
     (fun _ _ => none) (by decide)⟩

/-- C8: In the final translation step of a turn, the base answer is translated
as a whole exactly when the language is not 'ru' and the composed reply equals
the raw answer (no augmentation); when an augmentation block was appended the
composed reply keeps the untranslated base answer and only the block is
translated — the composed string can never equal the raw answer. -/
theorem c8_translation_gating :
    (∀ (st : UserState) (q ctx lang a : String) (cc : Option String)
        (fu : Nat) (tr : TranslateOracle),
        augmentation_decision (st.gpt_answers.length + 1)
          (st.message_count + 1) = .noAug →
        lang ≠ "ru" →
        (generate_response q ctx lang st (some a) cc fu tr).1 =
          translate_response tr a lang)
  ∧ (∀ (st : UserState) (q ctx lang a : String) (cc : Option String)
        (fu : Nat) (tr : TranslateOracle),
        augmentation_decision (st.gpt_answers.length + 1)
          (st.message_count + 1) = .followUp →
        (generate_response q ctx lang st (some a) cc fu tr).1 =
          a ++ "\n\n" ++
            (if lang ≠ "ru" then
              translate_response tr
                (follow_up_questions.getD
                  (fu % follow_up_questions.length) "") lang
             else follow_up_questions.getD
                (fu % follow_up_questions.length) ""))
  ∧ (∀ (st : UserState) (q ctx lang a c : String) (fu : Nat)
        (tr : TranslateOracle),
        augmentation_decision (st.gpt_answers.length + 1)
          (st.message_count + 1) = .comprehension →
        (generate_response q ctx lang st (some a) (some c) fu tr).1 =
          a ++ "\n\n" ++
            (if lang ≠ "ru" then
              translate_response tr (relabel_understanding_check c) lang
             else relabel_understanding_check c))
  ∧ (∀ answer block : String, answer ++ "\n\n" ++ block ≠ answer) := by
  refine ⟨?_, ?_, ?_, string_append_block_ne⟩
  · intro st q ctx lang a cc fu tr h hl
    rw [generate_response_noAug q ctx lang st a cc fu tr h]
    simp [hl]
  · intro st q ctx lang a cc fu tr h
    rw [generate_response_followUp q ctx lang st a cc fu tr h]
  · intro st q ctx lang a c fu tr h
    rw [generate_response_comprehension q ctx lang st a c fu tr h]

/-- Witness for C8 at concrete inputs. -/
theorem c8_translation_gating_witness :
    (generate_response "q" "" "en" UserState.init (some "ans") none 0
      (fun _ _ => some "T")).1 =
      translate_response (fun _ _ => some "T") "ans" "en" :=
  c8_translation_gating.1 UserState.init "q" "" "en" "ans" none 0
    (fun _ _ => some "T") (by decide) (by decide)

/-- C7: For every user with an existing conversation state, after reset the
state's language and gpt_answers equal their pre-reset values, while the chat
history is empty and the message count is 0. -/
theorem c7_reset_preserves :
    ∀ (user_states : Nat → Option UserState) (user_id : Nat) (s : UserState)
      (tr : TranslateOracle),
      user_states user_id = some s →
      ∃ s', (reset_command user_states user_id tr).1 user_id = some s' ∧
        s'.language = s.language ∧ s'.gpt_answers = s.gpt_answers ∧
        s'.chat_history = [] ∧ s'.message_count = 0 := by
  intro states uid s tr h
  refine ⟨{ UserState.init with
            language := s.language, gpt_answers := s.gpt_answers },
    ?_, rfl, rfl, rfl, rfl⟩
  simp [reset_command, h, UserState.init]

/-- Witness for C7 at a concrete state map. -/
theorem c7_reset_preserves_witness :
    ∃ s', (reset_command
        (fun uid => if uid = 7 then
          some ⟨[("q", "r")], "en", "r", 4, ["r"]⟩ else none) 7
        (fun _ _ => none)).1 7 = some s' ∧
      s'.language = "en" ∧ s'.gpt_answers = ["r"] ∧
      s'.chat_history = [] ∧ s'.message_count = 0 :=
  c7_reset_preserves _ 7 ⟨[("q", "r")], "en", "r", 4, ["r"]⟩
    (fun _ _ => none) (by simp)

lemma format_context_go_filter :
    ∀ (pairs : List (String × DocMetadata)) (i : Nat) (acc : String),
      (∃ p ∈ pairs, p.2.source = "filter") →
      format_context_go pairs i acc = "" := by
  intro pairs
  induction pairs with
  | nil => intro i acc h; simp at h
  | cons hd tl ih =>
    intro i acc h
    by_cases hhd : hd.2.source = "filter"
    · simp [format_context_go, hhd]
    · rcases h with ⟨p, hp, hsrc⟩
      rcases List.mem_cons.mp hp with rfl | hp'
      · exact absurd hsrc hhd
      · simp only [format_context_go, if_neg hhd]
        exact ih _ _ ⟨p, hp', hsrc⟩

lemma exists_zip_right {α β : Type} :
    ∀ (xs : List α) (ys : List β), xs.length = ys.length →
      ∀ y ∈ ys, ∃ x, (x, y) ∈ xs.zip ys := by
  intro xs
  induction xs with
  | nil =>
    intro ys h y hy
    cases ys with
    | nil => simp at hy
    | cons b bs => simp at h
  | cons a as ih =>
    intro ys h y hy
    cases ys with
    | nil => simp at hy
    | cons b bs =>
      rcases List.mem_cons.mp hy with rfl | hy'
      · exact ⟨a, by simp⟩
      · rcases ih bs (by simpa using h) y hy' with ⟨x, hx⟩
        exact ⟨x, by simp [hx]⟩

lemma collect_results_spec :
    ∀ (documents : List Document) (indices : List Int)
      (texts : List String) (metas : List DocMetadata),
      collect_results documents indices = some (texts, metas) →
      texts.length = metas.length ∧
      texts.length = (indices.filter (fun i => i ≠ -1)).length := by
  intro documents indices
  induction indices with
  | nil =>
    intro texts metas h
    simp only [collect_results, Option.some.injEq, Prod.mk.injEq] at h
    obtain ⟨h1, h2⟩ := h
    subst h1; subst h2
    simp
  | cons idx rest ih =>
    intro texts metas h
    by_cases hidx : idx = -1
    · simp only [collect_results, if_pos hidx] at h
      have hr := ih texts metas h
      simpa [hidx] using hr
    · simp only [collect_results, if_neg hidx] at h
      cases hget : pyGet documents idx with
      | none => simp [hget] at h
      | some doc =>
        cases hrest : collect_results documents rest with
        | none => simp [hget, hrest] at h
        | some pr =>
          obtain ⟨ts, ms⟩ := pr
          simp only [hget, hrest, Option.some.injEq, Prod.mk.injEq] at h
          obtain ⟨h1, h2⟩ := h
          subst h1; subst h2
          have hr := ih ts ms hrest
          constructor
          · simpa using hr.1
          · simp [hidx, hr.2]

/-- C10: For every question and every top_k, `query` (when it returns) yields
two parallel lists of equal length on both the gate-rejected path and the
accepted search path, and on the accepted path the invalid FAISS slots
(index -1) are omitted from both lists, never padded: the common length is
the number of non-(-1) indices returned by the search. -/
theorem c10_parallel_lists :
    ∀ (kb : KnowledgeBase) (search_fn : String → Nat → List Int)
      (question : String) (top_k : Nat)
      (texts : List String) (metas : List DocMetadata),
      KnowledgeBase.query kb search_fn question top_k = some (texts, metas) →
      texts.length = metas.length ∧
      (is_question_relevant question = true →
        texts.length =
          ((search_fn question top_k).filter (fun i => i ≠ -1)).length) := by
  intro kb sf q k texts metas h
  unfold KnowledgeBase.query at h
  by_cases hrel : is_question_relevant q = true
  · rw [hrel] at h
    simp only [Bool.not_true, Bool.false_eq_true, if_false] at h
    exact ⟨(collect_results_spec _ _ _ _ h).1,
      fun _ => (collect_results_spec _ _ _ _ h).2⟩
  · have hb : is_question_relevant q = false := by
      cases hq : is_question_relevant q
      · rfl
      · exact absurd hq hrel
    rw [hb] at h
    simp only [Bool.not_false, if_true, Option.some.injEq, Prod.mk.injEq] at h
    obtain ⟨h1, h2⟩ := h
    subst h1; subst h2
    exact ⟨rfl, fun ht => absurd ht hrel⟩

/-- Witness for C10 at a concrete two-document knowledge base and a search
returning one -1 slot. -/
theorem c10_parallel_lists_witness :
    (["a", "b"] : List String).length =
      ([⟨"s1", 0⟩, ⟨"s2", 1⟩] : List DocMetadata).length ∧
    (is_question_relevant "latoken" = true →
      (["a", "b"] : List String).length =
        (([0, -1, 1] : List Int).filter (fun i => i ≠ -1)).length) :=
  c10_parallel_lists
    ⟨none, [⟨"a", ⟨"s1", 0⟩⟩, ⟨"b", ⟨"s2", 1⟩⟩]⟩
    (fun _ _ => [0, -1, 1]) "latoken" 5 ["a", "b"] [⟨"s1", 0⟩, ⟨"s2", 1⟩]
    (by decide)

/-- C6: For every query the Relevance Gate rejects, `query` returns exactly
one synthetic result whose metadata source is the sentinel "filter" (no
vector search is performed), and the context formatter applied to any
parallel result lists containing that sentinel returns the empty string. -/
theorem c6_filter_sentinel :
    (∀ (kb : KnowledgeBase) (search_fn : String → Nat → List Int)
        (question : String) (top_k : Nat),
        is_question_relevant question = false →
        KnowledgeBase.query kb search_fn question top_k =
          some ([filter_message], [{ source := "filter", chunk_id := 0 }]))
  ∧ (∀ (docs : List String) (metadata : List DocMetadata),
        docs.length = metadata.length →
        (∃ m ∈ metadata, m.source = "filter") →
        format_context docs metadata = "") := by
  constructor
  · intro kb sf q k h
    simp [KnowledgeBase.query, h]
  · rintro docs metadata hlen ⟨m, hm, hsrc⟩
    obtain ⟨d, hd⟩ := exists_zip_right docs metadata hlen m hm
    exact format_context_go_filter _ 0 "" ⟨(d, m), hd, hsrc⟩

/-- Witness for C6 at a concrete rejected question. -/
theorem c6_filter_sentinel_witness :
    KnowledgeBase.query KnowledgeBase.empty (fun _ _ => [])
      "what is the weather" 5 =
      some ([filter_message], [{ source := "filter", chunk_id := 0 }]) ∧
    format_context [filter_message] [{ source := "filter", chunk_id := 0 }]
      = "" :=
  ⟨c6_filter_sentinel.1 KnowledgeBase.empty (fun _ _ => [])
      "what is the weather" 5 (by decide),
   c6_filter_sentinel.2 [filter_message] [{ source := "filter", chunk_id := 0 }]
      rfl ⟨{ source := "filter", chunk_id := 0 }, by simp, rfl⟩⟩

/-- C9 counterexample: "sugarc ookie" is "sugar cookie" with its whitespace
moved (same character multiset, identical non-whitespace characters in the
same order), yet the gate accepts one and rejects the other — the outcome is
not invariant under permutations of whitespace. -/
theorem c9_counterexample :
    ("sugar cookie".data).Perm ("sugarc ookie".data)
  ∧ ("sugar cookie".data).filter (fun c => !c.isWhitespace) =
      ("sugarc ookie".data).filter (fun c => !c.isWhitespace)
  ∧ is_question_relevant "sugar cookie" = true
  ∧ is_question_relevant "sugarc ookie" = false :=
  ⟨by decide, by decide, by decide, by decide⟩

/-- C9 amended: the gate returns true exactly when the query contains some
vocabulary term as a case-insensitive substring, and the outcome is invariant
under letter-case changes of the query (but not under whitespace
permutations, as the counterexample shows). -/
theorem c9_gate_characterization :
    (∀ question : String,
        is_question_relevant question = true ↔
          ∃ t ∈ RELEVANT_TOPICS, t.data <:+: question.data.map Char.toLower)
  ∧ (∀ q q' : String,
        q.data.map Char.toLower = q'.data.map Char.toLower →
        is_question_relevant q = is_question_relevant q') := by
  constructor
  · intro q
    simp [is_question_relevant, List.any_eq_true]
  · intro q q' h
    simp only [is_question_relevant, h]

/-- Witness for C9 (amended) at concrete case-permuted queries. -/
theorem c9_gate_characterization_witness :
    is_question_relevant "LATOKEN Culture" =
      is_question_relevant "latoken CULTURE" :=
  c9_gate_characterization.2 "LATOKEN Culture" "latoken CULTURE" (by decide)

/-- C3 counterexample: with a translator oracle that would translate, the
target 'en' (a recognized code different from the default 'ru') is returned
unchanged, while the default locale 'ru' is NOT an identity: the translator
is invoked. -/
theorem c3_counterexample :
    translate_response (fun _ _ => some "TRANSLATED") "hello" "en" = "hello"
  ∧ translate_response (fun _ _ => some "TRANSLATED") "hello" "ru" =
      "TRANSLATED" :=
  ⟨by decide, by decide⟩

/-- C3 amended: translation is the identity when the target is 'en' or an
unrecognized code; for any other recognized target — including the default
locale 'ru' — the translator is invoked and its output returned, falling back
to the input only when the call fails. -/
theorem c3_translate_characterization :
    (∀ (tr : TranslateOracle) (text : String),
        translate_response tr text "en" = text)
  ∧ (∀ (tr : TranslateOracle) (text target : String),
        target ∉ LANGUAGE_MAP.map Prod.fst →
        translate_response tr text target = text)
  ∧ (∀ (tr : TranslateOracle) (text target translated : String),
        target ≠ "en" → target ∈ LANGUAGE_MAP.map Prod.fst →
        tr text target = some translated →
        translate_response tr text target = translated)
  ∧ (∀ (tr : TranslateOracle) (text target : String),
        target ≠ "en" → target ∈ LANGUAGE_MAP.map Prod.fst →
        tr text target = none →
        translate_response tr text target = text) := by
  refine ⟨?_, ?_, ?_, ?_⟩
  · intro tr text
    simp [translate_response]
  · intro tr text target h
    simp [translate_response, h]
  · intro tr text target translated hne hmem htr
    simp [translate_response, hne, hmem, htr]
  · intro tr text target hne hmem htr
    simp [translate_response, hne, hmem, htr]

/-- Witness for C3 (amended): the default locale 'ru' is translated. -/
theorem c3_translate_characterization_witness :
    translate_response (fun _ _ => some "Привет") "hello" "ru" = "Привет" :=
  c3_translate_characterization.2.2.1 (fun _ _ => some "Привет") "hello" "ru"
    "Привет" (by decide) (by decide) rfl

/-- C4 counterexample: a snapshot with 2 vectors but 1 metadata entry loads
successfully (returns True and installs both artifacts unchecked); the
mismatch is not a fatal load error. -/
theorem c4_counterexample :
    (load_or_create_index KnowledgeBase.empty
        (some ⟨[[0.5], [1.5]]⟩) (some [⟨"t", ⟨"s", 0⟩⟩])).1 = true
  ∧ ((load_or_create_index KnowledgeBase.empty
        (some ⟨[[0.5], [1.5]]⟩) (some [⟨"t", ⟨"s", 0⟩⟩])).2.index.map
          (fun idx => idx.vectors.length)) = some 2
  ∧ (load_or_create_index KnowledgeBase.empty
        (some ⟨[[0.5], [1.5]]⟩)
        (some [⟨"t", ⟨"s", 0⟩⟩])).2.documents.length = 1
  ∧ (2 : Nat) ≠ 1 :=
  ⟨rfl, rfl, rfl, by decide⟩

/-- C4 amended: loading succeeds exactly when both artifacts are present —
if either is missing, the load fails and full ingestion runs — but no
consistency check is made between the number of vectors and the number of
metadata entries: a mismatched snapshot still loads successfully. -/
theorem c4_load_characterization :
    (∀ (kb : KnowledgeBase) (idx : FaissIndex) (docs : List Document),
        load_or_create_index kb (some idx) (some docs) =
          (true, { kb with index := some idx, documents := docs }))
  ∧ (∀ (kb : KnowledgeBase) (idx : FaissIndex) (docs : List Document),
        idx.vectors.length ≠ docs.length →
        (load_or_create_index kb (some idx) (some docs)).1 = true)
  ∧ (∀ (kb : KnowledgeBase) (stored_index : Option FaissIndex)
        (stored_documents : Option (List Document)),
        stored_index = none ∨ stored_documents = none →
        load_or_create_index kb stored_index stored_documents = (false, kb))
  ∧ (∀ (stored_index : Option FaissIndex)
        (stored_documents : Option (List Document)) (fetch : FetchOracle)
        (readFile : String → Except String String)
        (markdown_files : List String) (split_text : String → List String)
        (embed_documents : List String → List (List Float)),
        stored_index = none ∨ stored_documents = none →
        initialize_knowledge_base stored_index stored_documents fetch readFile
          markdown_files split_text embed_documents =
          create_index KnowledgeBase.empty fetch readFile markdown_files
            split_text embed_documents) := by
  refine ⟨fun kb idx docs => rfl, fun kb idx docs h => rfl, ?_, ?_⟩
  · intro kb si sd h
    rcases h with rfl | rfl
    · cases sd <;> rfl
    · cases si <;> rfl
  · intro si sd fetch readFile md split embed h
    rcases h with rfl | rfl
    · cases sd <;> rfl
    · cases si <;> rfl

/-- Witness for C4 (amended): a 1-vector/2-document mismatch still loads. -/
theorem c4_load_characterization_witness :
    (load_or_create_index KnowledgeBase.empty (some ⟨[[2.5]]⟩)
      (some [⟨"t", ⟨"s", 0⟩⟩, ⟨"u", ⟨"s", 1⟩⟩])).1 = true :=
  c4_load_characterization.2.1 KnowledgeBase.empty ⟨[[2.5]]⟩
    [⟨"t", ⟨"s", 0⟩⟩, ⟨"u", ⟨"s", 1⟩⟩] (by decide)

/-- C2 counterexample: when fetching the first source raises "timeout", that
source is not skipped — the fabricated error string is stored as its corpus
content and is chunked into the indexed document set. -/
theorem c2_counterexample :
    ("https://coda.io/@latoken/latoken-talent",
      "Error fetching content from https://coda.io/@latoken/latoken-talent: timeout")
      ∈ fetch_all_sources (fun _ => .error "timeout") (fun _ => .ok "") []
  ∧ ({ page_content :=
        "Error fetching content from https://coda.io/@latoken/latoken-talent: timeout",
       metadata := { source := "https://coda.io/@latoken/latoken-talent",
                     chunk_id := 0 } } : Document)
      ∈ create_index_documents (fun content => [content])
          (fetch_all_sources (fun _ => .error "timeout") (fun _ => .ok "") []) :=
  ⟨by decide, by decide⟩

/-- C2 amended: a fetch failure does not abort ingestion — every source (and
markdown file) still gets an entry and the remaining sources are processed —
but the failed source is not skipped: the error-message string is recorded as
its content, and every source whose content chunks to a non-empty list lands
in the indexed corpus, the failed ones included. -/
theorem c2_ingestion_characterization :
    (∀ (fetch : FetchOracle) (readFile : String → Except String String)
        (markdown_files : List String),
        (fetch_all_sources fetch readFile markdown_files).map Prod.fst =
          SOURCES ++ markdown_files)
  ∧ (∀ (fetch : FetchOracle) (readFile : String → Except String String)
        (markdown_files : List String) (url e : String),
        url ∈ SOURCES → fetch url = .error e →
        (url, "Error fetching content from " ++ url ++ ": " ++ e)
          ∈ fetch_all_sources fetch readFile markdown_files)
  ∧ (∀ (split_text : String → List String)
        (source_contents : List (String × String)) (src content : String),
        (src, content) ∈ source_contents → split_text content ≠ [] →
        ∃ d ∈ create_index_documents split_text source_contents,
          d.metadata.source = src) := by
  refine ⟨?_, ?_, ?_⟩
  · intro fetch readFile md
    simp [fetch_all_sources, List.map_map, Function.comp_def]
  · intro fetch readFile md url e hmem hfe
    apply List.mem_append_left
    exact List.mem_map.mpr ⟨url, hmem, by simp [fetch_content, hfe]⟩
  · intro split_text source_contents src content hmem hne
    cases hsplit : split_text content with
    | nil => exact absurd hsplit hne
    | cons c cs =>
      refine ⟨{ page_content := c,
                metadata := { source := src, chunk_id := 0 } }, ?_, rfl⟩
      apply List.mem_flatMap.mpr
      refine ⟨(src, content), hmem, ?_⟩
      rw [hsplit]
      exact List.Mem.head _

/-- Witness for C2 (amended) at a concrete failing fetch. -/
theorem c2_ingestion_characterization_witness :
    ("https://deliver.latoken.com/hackathon",
      "Error fetching content from " ++ "https://deliver.latoken.com/hackathon"
        ++ ": " ++ "boom")
      ∈ fetch_all_sources (fun _ => .error "boom") (fun _ => .ok "") [] :=
  c2_ingestion_characterization.2.1 (fun _ => .error "boom") (fun _ => .ok "")
    [] "https://deliver.latoken.com/hackathon" "boom" (by decide) rfl

/-- C1 counterexample: a turn whose completion call fails still appends the
(question, error reply) pair to the per-user history — the history after the
failed turn differs from the history before it. -/
theorem c1_counterexample :
    (handle_message KnowledgeBase.empty (fun _ _ => []) UserState.init
        "what is the weather" (some "ru") none none 0
        (fun _ _ => none)).2.chat_history
      = [("what is the weather", generic_error_message)]
  ∧ UserState.init.chat_history = ([] : List (String × String))
  ∧ (handle_message KnowledgeBase.empty (fun _ _ => []) UserState.init
        "what is the weather" (some "ru") none none 0 (fun _ _ => none)).1
      = some generic_error_message :=
  ⟨by decide, rfl, by decide⟩

/-- C1 amended: a completion failure is caught at the turn boundary and the
user receives the localized generic error reply, but the turn IS recorded in
history (the error reply becomes the assistant text); a retrieval failure
aborts the turn with no reply and leaves the history unchanged. -/
theorem c1_failed_turn_effects :
    (∀ (kb : KnowledgeBase) (search_fn : String → Nat → List Int)
        (st : UserState) (msg : String) (detect_result : Option String)
        (cc : Option String) (fu : Nat) (tr : TranslateOracle)
        (docs : List String) (metas : List DocMetadata),
        kb.query search_fn msg 5 = some (docs, metas) →
        (handle_message kb search_fn st msg detect_result none cc fu tr).1 =
          some (localized_error (detect_language detect_result) tr) ∧
        (handle_message kb search_fn st msg detect_result none cc fu
            tr).2.chat_history =
          st.chat_history ++
            [(msg, localized_error (detect_language detect_result) tr)])
  ∧ (∀ (kb : KnowledgeBase) (search_fn : String → Nat → List Int)
        (st : UserState) (msg : String) (detect_result : Option String)
        (mc cc : Option String) (fu : Nat) (tr : TranslateOracle),
        kb.query search_fn msg 5 = none →
        (handle_message kb search_fn st msg detect_result mc cc fu tr).1 =
          none ∧
        (handle_message kb search_fn st msg detect_result mc cc fu
            tr).2.chat_history = st.chat_history) := by
  constructor
  · intro kb sf st msg dr cc fu tr docs metas hq
    unfold handle_message
    rw [hq]
    simp [generate_response_main_failure]
  · intro kb sf st msg dr mc cc fu tr hq
    unfold handle_message
    rw [hq]
    simp

/-- Witness for C1 (amended) at a concrete accepted query with a failing
completion call. -/
theorem c1_failed_turn_effects_witness :
    (handle_message KnowledgeBase.empty (fun _ _ => []) UserState.init
        "tell me about latoken" (some "en") none none 0
        (fun _ _ => none)).1 =
      some (localized_error (detect_language (some "en")) (fun _ _ => none)) ∧
    (handle_message KnowledgeBase.empty (fun _ _ => []) UserState.init
        "tell me about latoken" (some "en") none none 0
        (fun _ _ => none)).2.chat_history =
      UserState.init.chat_history ++
        [("tell me about latoken",
          localized_error (detect_language (some "en")) (fun _ _ => none))] :=
  c1_failed_turn_effects.1 KnowledgeBase.empty (fun _ _ => []) UserState.init
    "tell me about latoken" (some "en") none 0 (fun _ _ => none) [] []
    (by decide)

end LatokenBot
